import Mathlib

/-!
# LiftCare backend — shallow embedding of the access-control core

This file embeds, in Lean, the role-scoped data-access layer of the
LiftCare elevator-maintenance backend (Express + MySQL) and proves the
frozen specification claims about it.

Modelling conventions:
* each relational table is a `List` of row structures; a `SELECT ... WHERE p`
  is a `List.filter`, a keyed join lookup is `List.find?` (row ids are unique
  in the store), `DELETE WHERE p` keeps the non-matching rows, `INSERT`
  appends;
* JavaScript truthiness of an optional id (`v || 0`, `v || null`,
  `if (v) ...`) is made explicit on `Option Nat` / `Option String` values;
* `ORDER BY` / `LIMIT` shaping is irrelevant to the membership and emptiness
  properties proved here and is not modelled;
* each route handler becomes a function `DB → request → DB × Resp`
  returning the new store and the HTTP response.
-/

namespace LiftCare

/-- Verified JWT claim set attached to the request by the auth middleware
(`req.user`): `{ id, email, name, role, customer_id? }`. -/
structure Claims where
  id : Nat
  email : String
  name : String
  role : String
  customer_id : Option Nat
deriving Repr, DecidableEq

/-- HTTP response: status code and message body (empty when the handler
responds with a data payload instead of a message). -/
structure Resp where
  status : Nat
  message : String
deriving Repr, DecidableEq

/-- Row of the `users` table. -/
structure UserRow where
  id : Nat
  email : String
  name : String
  role : String
  customer_id : Option Nat
deriving Repr, DecidableEq

/-- Row of the `customers` table (attributes beyond the key are not used by
the access-control core). -/
structure CustomerRow where
  id : Nat
  name : String
  contact_email : String
deriving Repr, DecidableEq

/-- Row of the `buildings` table. -/
structure BuildingRow where
  id : Nat
  customer_id : Nat
  name : String
deriving Repr, DecidableEq

/-- Row of the `elevators` table.  `customer_id` is the denormalised column
referenced by the alerts and dashboard queries; the `POST /elevators` insert
leaves it NULL. -/
structure ElevatorRow where
  id : String
  name : String
  building_id : Nat
  customer_id : Option Nat
  brand : Option String
  model : Option String
  install_year : Option Nat
  install_location : Option String
  current_floor : Nat
  current_load : Nat
  state : String
  capacity : Option Nat
  last_maintenance_at : Option String
  next_maintenance_at : Option String
deriving Repr, DecidableEq

/-- Row of the `tickets` table (columns used by the scoped listing). -/
structure TicketRow where
  id : String
  elevator_id : String
  reporter_id : Nat
  customer_id : Option Nat
  status : String
deriving Repr, DecidableEq

/-- Row of the `contracts` table (columns used by the scoped listing). -/
structure ContractRow where
  id : Nat
  customer_id : Nat
  contract_code : String
deriving Repr, DecidableEq

/-- Row of the `quotations` table (columns used by the scoped listing). -/
structure QuotationRow where
  id : Nat
  customer_id : Nat
deriving Repr, DecidableEq

/-- Row of the `invoices` table (columns used by the scoped listing). -/
structure InvoiceRow where
  id : Nat
  customer_id : Nat
deriving Repr, DecidableEq

/-- Row of the `maintenance_plans` table (columns used by the scoped
listing). -/
structure PlanRow where
  id : Nat
  elevator_id : String
  contract_id : Option Nat
deriving Repr, DecidableEq

/-- Row of the `maintenance_jobs` table. -/
structure JobRow where
  id : Nat
  elevator_id : String
  contract_id : Option Nat
  ticket_id : Option String
  technician_id : Option Nat
  job_type : String
  remarks : Option String
  total_labor_hours : Nat
  labor_cost : Nat
  parts_cost : Nat
  total_cost : Nat
  started_at : Option String
  finished_at : Option String
deriving Repr, DecidableEq

/-- Row of the `technicians` table. -/
structure TechnicianRow where
  id : Nat
  user_id : Nat
  phone : Option String
  specialty : Option String
  notes : Option String
deriving Repr, DecidableEq

/-- Row of the `technician_requests` table. -/
structure TechRequestRow where
  id : Nat
  user_id : Nat
  phone : String
  specialty : String
  address : String
  date_of_birth : String
  age : Option Nat
  experience : String
  education : String
  notes : Option String
  status : String
deriving Repr, DecidableEq

/-- Row of the `notifications` table (columns written and matched by the
elevator state-change side effect). -/
structure NotificationRow where
  user_id : Nat
  type : String
  channel : String
  title : String
  body : String
deriving Repr, DecidableEq

/-- Row of the `alerts` table (columns used by the scoped listing). -/
structure AlertRow where
  id : Nat
  elevator_id : String
  resolved_at : Option String
deriving Repr, DecidableEq

/-- The relational store. -/
structure DB where
  users : List UserRow
  customers : List CustomerRow
  buildings : List BuildingRow
  elevators : List ElevatorRow
  tickets : List TicketRow
  contracts : List ContractRow
  quotations : List QuotationRow
  invoices : List InvoiceRow
  plans : List PlanRow
  jobs : List JobRow
  technicians : List TechnicianRow
  techRequests : List TechRequestRow
  notifications : List NotificationRow
  alerts : List AlertRow
deriving Repr, DecidableEq

/-- `customer_id || 0`: the sentinel value pushed as the SQL parameter when a
customer-role token has no (or a falsy) `customer_id`. -/
def sentinel (cid : Option Nat) : Nat := cid.getD 0

/-- JavaScript truthiness of an optional numeric id (`if (req.user.customer_id)`). -/
def truthyCid : Option Nat → Bool
  | some c => c ≠ 0
  | none => false

/-- JavaScript truthiness of an optional string field (`if (!field)` guard). -/
def truthyStr : Option String → Bool
  | some s => s ≠ ""
  | none => false

/-- `v || null` on an optional numeric field: the falsy values `0` and
absent both store NULL. -/
def orNullNat (v : Option Nat) : Option Nat := v.filter (· ≠ 0)

/-- `v || null` on an optional string field: the falsy values `""` and
absent both store NULL. -/
def orNullStr (v : Option String) : Option String := v.filter (· ≠ "")

/-- Keyed lookup in `buildings` (join `ON e.building_id = b.id`). -/
def DB.findBuilding (db : DB) (bid : Nat) : Option BuildingRow :=
  db.buildings.find? (fun b => b.id == bid)

/-- Keyed lookup in `elevators` (join `ON x.elevator_id = e.id`). -/
def DB.findElevator (db : DB) (eid : String) : Option ElevatorRow :=
  db.elevators.find? (fun e => e.id == eid)

/-- Keyed lookup in `technicians` (join `ON mj.technician_id = tech.id`). -/
def DB.findTechnician (db : DB) (tid : Nat) : Option TechnicianRow :=
  db.technicians.find? (fun t => t.id == tid)

/-- Keyed lookup in `users` (join `ON tech.user_id = u.id`). -/
def DB.findUser (db : DB) (uid : Nat) : Option UserRow :=
  db.users.find? (fun u => u.id == uid)

/-- The customer owning an elevator through the `buildings` join
(`LEFT JOIN buildings b ON e.building_id = b.id` … `b.customer_id`);
`none` when the join produces NULL. -/
def elevatorCustomer (db : DB) (e : ElevatorRow) : Option Nat :=
  (db.findBuilding e.building_id).map BuildingRow.customer_id

/-- The identity (user id) of the technician a job is assigned to, through
`LEFT JOIN technicians tech ON mj.technician_id = tech.id
 LEFT JOIN users u ON tech.user_id = u.id` … `u.id`;
`none` when any join step produces NULL. -/
def jobTechnicianUser (db : DB) (j : JobRow) : Option Nat :=
  match j.technician_id with
  | none => none
  | some tid =>
    match db.findTechnician tid with
    | none => none
    | some t =>
      match db.findUser t.user_id with
      | none => none
      | some u => some u.id

/-- The customer owning a job through
`LEFT JOIN elevators e ON mj.elevator_id = e.id
 LEFT JOIN buildings b ON e.building_id = b.id` … `b.customer_id`. -/
def jobCustomer (db : DB) (j : JobRow) : Option Nat :=
  match db.findElevator j.elevator_id with
  | none => none
  | some e => elevatorCustomer db e

/-- The customer owning a maintenance plan through the same
elevators→buildings join chain. -/
def planCustomer (db : DB) (p : PlanRow) : Option Nat :=
  match db.findElevator p.elevator_id with
  | none => none
  | some e => elevatorCustomer db e

/-! ## Role-scoped listings (the `WHERE` clause each GET handler builds) -/

/-- `GET /api/contracts` (Contracts.js): customer role appends
`WHERE customer_id = ?` with parameter `customer_id || 0`. -/
def listContracts (u : Claims) (db : DB) : List ContractRow :=
  if u.role = "customer" then
    db.contracts.filter (fun c => c.customer_id == sentinel u.customer_id)
  else
    db.contracts

/-- `GET /api/buildings` (Contracts.js): customer role appends
`WHERE b.customer_id = ?` with parameter `customer_id || 0`. -/
def listBuildings (u : Claims) (db : DB) : List BuildingRow :=
  if u.role = "customer" then
    db.buildings.filter (fun b => b.customer_id == sentinel u.customer_id)
  else
    db.buildings

/-- `GET /api/elevators` (Contracts.js): customer role appends
`WHERE b.customer_id = ?` over the buildings join, parameter
`customer_id || 0`; a NULL join (no building row) fails the comparison. -/
def listElevators (u : Claims) (db : DB) : List ElevatorRow :=
  if u.role = "customer" then
    db.elevators.filter (fun e => elevatorCustomer db e == some (sentinel u.customer_id))
  else
    db.elevators

/-- `GET /api/quotations` (Contracts.js): customer role appends
`WHERE q.customer_id = ?` with parameter `customer_id || 0`. -/
def listQuotations (u : Claims) (db : DB) : List QuotationRow :=
  if u.role = "customer" then
    db.quotations.filter (fun q => q.customer_id == sentinel u.customer_id)
  else
    db.quotations

/-- `GET /api/invoices` (Contracts.js): customer role appends
`WHERE customer_id = ?` with parameter `customer_id || 0`. -/
def listInvoices (u : Claims) (db : DB) : List InvoiceRow :=
  if u.role = "customer" then
    db.invoices.filter (fun i => i.customer_id == sentinel u.customer_id)
  else
    db.invoices

/-- `GET /api/maintenance/plans` (Maintenance.js): customer role appends
`WHERE b.customer_id = ?` over the elevators→buildings joins, parameter
`customer_id || 0`. -/
def listPlans (u : Claims) (db : DB) : List PlanRow :=
  if u.role = "customer" then
    db.plans.filter (fun p => planCustomer db p == some (sentinel u.customer_id))
  else
    db.plans

/-- `GET /api/maintenance/jobs` (Maintenance.js): technician role appends
`WHERE u.id = ?` over the technicians→users joins (parameter the caller's
user id); customer role appends `WHERE b.customer_id = ?` with parameter
`customer_id || 0`. -/
def listJobs (u : Claims) (db : DB) : List JobRow :=
  if u.role = "technician" then
    db.jobs.filter (fun j => jobTechnicianUser db j == some u.id)
  else if u.role = "customer" then
    db.jobs.filter (fun j => jobCustomer db j == some (sentinel u.customer_id))
  else
    db.jobs

/-- `GET /api/tickets` (Maintenance.js): the filter
`WHERE t.customer_id = ?` is appended only when
`req.user.role === "customer" && req.user.customer_id` is truthy; otherwise
the query runs unfiltered. -/
def listTickets (u : Claims) (db : DB) : List TicketRow :=
  if u.role = "customer" ∧ truthyCid u.customer_id then
    db.tickets.filter (fun t => t.customer_id == u.customer_id)
  else
    db.tickets

/-- `GET /api/alerts` (Contracts.js): unresolved alerts; the filter
`AND e.customer_id = ?` is appended only when
`req.user.role === "customer" && req.user.customer_id` is truthy. -/
def listAlerts (u : Claims) (db : DB) : List AlertRow :=
  let base := db.alerts.filter (fun a => a.resolved_at == none)
  if u.role = "customer" ∧ truthyCid u.customer_id then
    base.filter (fun a =>
      ((db.findElevator a.elevator_id).bind ElevatorRow.customer_id) == u.customer_id)
  else
    base

/-- `GET /api/dashboard/summary` (Contracts.js): the three counts, each
scoped by `customer_id` only when
`req.user.role === "customer" && req.user.customer_id` is truthy. -/
def dashboardSummary (u : Claims) (db : DB) : Nat × Nat × Nat :=
  let cScoped := u.role == "customer" && truthyCid u.customer_id
  let elevators :=
    if cScoped then db.elevators.filter (fun e => e.customer_id == u.customer_id)
    else db.elevators
  let tickets :=
    let base := db.tickets.filter (fun t => t.status == "pending" || t.status == "in_progress")
    if cScoped then base.filter (fun t => t.customer_id == u.customer_id) else base
  let alerts :=
    let base := db.alerts.filter (fun a => a.resolved_at == none)
    if cScoped then
      base.filter (fun a =>
        ((db.findElevator a.elevator_id).bind ElevatorRow.customer_id) == u.customer_id)
    else base
  (elevators.length, tickets.length, alerts.length)

/-! ## Access Guard (Auth/middle.js) -/

/-- Token extraction of `authRequired`:
`const h = req.headers.authorization || ""`,
`const token = h.startsWith("Bearer ") ? h.slice(7) : null`.
The falsy results `null` and `""` are both collapsed to `""`, exactly as the
subsequent `if (!token)` check treats them. -/
def bearerToken (authHeader : Option String) : String :=
  let h := authHeader.getD ""
  if h.startsWith "Bearer " then h.drop 7 else ""

/-- Outcome of the `authRequired` middleware. -/
inductive AuthOutcome where
  | missing
  | invalid
  | ok (c : Claims)
deriving Repr, DecidableEq

/-- `authRequired` (Auth/middle.js): 401 `Missing token` when no bearer
token is present, 401 `Invalid or expired token` when `jwt.verify` throws,
otherwise the verified claims are attached to the request.  `verify`
abstracts `jwt.verify` (`none` = throws). -/
def authRequired (verify : String → Option Claims) (authHeader : Option String) :
    AuthOutcome :=
  let token := bearerToken authHeader
  if token = "" then .missing
  else
    match verify token with
    | some c => .ok c
    | none => .invalid

/-- A protected route: the `authRequired` middleware runs before the handler,
so a guard failure returns 401 and the handler (and with it every database
access) is never reached. -/
def protectedRoute (verify : String → Option Claims)
    (handler : Claims → DB → DB × Resp)
    (authHeader : Option String) (db : DB) : DB × Resp :=
  match authRequired verify authHeader with
  | .missing => (db, ⟨401, "Missing token"⟩)
  | .invalid => (db, ⟨401, "Invalid or expired token"⟩)
  | .ok c => handler c db

/-! ## POST /auth/register (Auth/Auth.js) -/

/-- Request body of `POST /auth/register`. -/
structure RegisterBody where
  email : Option String
  password : Option String
  name : Option String
  role : Option String
  customerId : Option Nat
deriving Repr, DecidableEq

/-- `POST /auth/register`: 400 on missing field, role coerced by
`role === "technician" ? "technician" : "customer"`, 409 when the email is
already used, otherwise one `users` row is inserted with
`customer_id = validRole === "technician" ? null : (customerId || null)`.
`newId` abstracts the auto-increment `insertId`. -/
def register (db : DB) (b : RegisterBody) (newId : Nat) : DB × Resp :=
  if ¬ (truthyStr b.email ∧ truthyStr b.password ∧ truthyStr b.name) then
    (db, ⟨400, "email, password, name are required"⟩)
  else
    let validRole := if b.role = some "technician" then "technician" else "customer"
    if (db.users.filter (fun u => some u.email == b.email)) ≠ [] then
      (db, ⟨409, "Email already in use"⟩)
    else
      let finalCustomerId : Option Nat :=
        if validRole = "technician" then none
        else orNullNat b.customerId
      let row : UserRow :=
        { id := newId
          email := b.email.getD ""
          name := b.name.getD ""
          role := validRole
          customer_id := finalCustomerId }
      ({ db with users := db.users ++ [row] }, ⟨201, ""⟩)

/-! ## Technician requests (Contracts.js) -/

/-- Request body of `POST /api/technician-requests`. -/
structure TechRequestBody where
  phone : Option String
  specialty : Option String
  address : Option String
  date_of_birth : Option String
  age : Option Nat
  experience : Option String
  education : Option String
  notes : Option String
deriving Repr, DecidableEq

/-- `POST /api/technician-requests` (technician role): 400 on missing
required field; 409 when the caller already has a `pending` request;
otherwise one row with status `pending` is inserted.  `newId` abstracts the
auto-increment `insertId`. -/
def postTechnicianRequest (db : DB) (u : Claims) (b : TechRequestBody) (newId : Nat) :
    DB × Resp :=
  if ¬ (truthyStr b.phone ∧ truthyStr b.specialty ∧ truthyStr b.address ∧
        truthyStr b.date_of_birth ∧ truthyStr b.experience ∧ truthyStr b.education) then
    (db, ⟨400, "Missing required fields"⟩)
  else if (db.techRequests.filter (fun r => r.user_id == u.id && r.status == "pending")) ≠ [] then
    (db, ⟨409, "You already have a pending request. Please wait for admin approval."⟩)
  else
    let row : TechRequestRow :=
      { id := newId
        user_id := u.id
        phone := b.phone.getD ""
        specialty := b.specialty.getD ""
        address := b.address.getD ""
        date_of_birth := b.date_of_birth.getD ""
        age := b.age
        experience := b.experience.getD ""
        education := b.education.getD ""
        notes := orNullStr b.notes
        status := "pending" }
    ({ db with techRequests := db.techRequests ++ [row] }, ⟨201, ""⟩)

/-- `PUT /api/technician-requests/:id` (admin role): 400 unless the new
status is `approved` or `rejected`; 404 when the request row is missing; on
`approved`, a `technicians` row is inserted only when none exists for the
request's `user_id`; finally the request's status is updated.  `newTechId`
abstracts the auto-increment `insertId` of the technician insert. -/
def putTechnicianRequest (db : DB) (rid : Nat) (status : Option String) (newTechId : Nat) :
    DB × Resp :=
  match status with
  | none => (db, ⟨400, "Status must be approved or rejected"⟩)
  | some s =>
    if ¬ (s = "approved" ∨ s = "rejected") then
      (db, ⟨400, "Status must be approved or rejected"⟩)
    else
      match db.techRequests.find? (fun r => r.id == rid) with
      | none => (db, ⟨404, "Request not found"⟩)
      | some req =>
        let db1 :=
          if s = "approved" ∧
             (db.technicians.filter (fun t => t.user_id == req.user_id)) = [] then
            { db with technicians := db.technicians ++
                [{ id := newTechId
                   user_id := req.user_id
                   phone := some req.phone
                   specialty := some req.specialty
                   notes := req.notes }] }
          else db
        let db2 :=
          { db1 with techRequests :=
              db1.techRequests.map (fun r => if r.id == rid then { r with status := s } else r) }
        (db2, ⟨200, ""⟩)

/-! ## Elevators (Contracts.js) -/

/-- The ENUM the handlers map the requested state onto. -/
def allowedStates : List String :=
  ["normal", "fault", "in_maintenance", "waiting_maintenance", "waiting_quotation"]

/-- `const safeState = allowedStates.includes(state) ? state : "normal"`;
an absent `state` (undefined) is not a member, hence also `"normal"`. -/
def safeStateOf : Option String → String
  | some st => if allowedStates.contains st then st else "normal"
  | none => "normal"

/-- Request body of `POST /api/elevators` and `PUT /api/elevators/:id`
(`id` only for POST; the PUT route never changes the id). -/
structure ElevatorBody where
  id : Option String
  name : Option String
  building_id : Option Nat
  brand : Option String
  model : Option String
  install_year : Option Nat
  install_location : Option String
  capacity : Option Nat
  state : Option String
  current_floor : Option Nat
  current_load : Option Nat
  last_maintenance_at : Option String
  next_maintenance_at : Option String
deriving Repr, DecidableEq

/-- `POST /api/elevators` (admin role): 400 when `id`, `name` or
`building_id` is falsy; the insert stores `safeState` and the `|| null` /
`|| 1` / `|| 0` defaults.  A duplicate primary key makes the insert throw,
surfaced as 500 with no row added. -/
def postElevator (db : DB) (b : ElevatorBody) : DB × Resp :=
  if ¬ (truthyStr b.id ∧ truthyStr b.name ∧ truthyCid b.building_id) then
    (db, ⟨400, "id, name and building_id are required"⟩)
  else
    let eid := b.id.getD ""
    match db.findElevator eid with
    | some _ => (db, ⟨500, "Internal server error"⟩)
    | none =>
      let row : ElevatorRow :=
        { id := eid
          name := b.name.getD ""
          building_id := b.building_id.getD 0
          customer_id := none
          brand := orNullStr b.brand
          model := orNullStr b.model
          install_year := orNullNat b.install_year
          install_location := orNullStr b.install_location
          current_floor := (b.current_floor.filter (· ≠ 0)).getD 1
          current_load := (b.current_load.filter (· ≠ 0)).getD 0
          state := safeStateOf b.state
          capacity := orNullNat b.capacity
          last_maintenance_at := orNullStr b.last_maintenance_at
          next_maintenance_at := orNullStr b.next_maintenance_at }
      ({ db with elevators := db.elevators ++ [row] }, ⟨201, ""⟩)

/-- `LIKE 'pre%'`: a prefix match, modelled character-wise. -/
def likePrefixed (pre s : String) : Bool := pre.data.isPrefixOf s.data

/-- The tag by which the state-change notifications of one elevator are
recognised for one user: `user_id = ?`, `type = 'elevator_state'`,
`channel = 'in_app'`, ``title LIKE `สถานะลิฟต์: ${elevator.id}%` ``. -/
def notifMatches (uid : Nat) (eid : String) (n : NotificationRow) : Bool :=
  n.user_id == uid && n.type == "elevator_state" && n.channel == "in_app" &&
    likePrefixed ("สถานะลิฟต์: " ++ eid) n.title

/-- The notification row inserted on a `normal → fault` (`toFault = true`)
or `fault → normal` transition, built from the freshly re-read elevator row
and its joined building name. -/
def stateNotification (uid : Nat) (toFault : Bool) (e : ElevatorRow)
    (buildingName : Option String) : NotificationRow :=
  let title :=
    if toFault then "สถานะลิฟต์: " ++ e.id ++ " เปลี่ยนเป็น Fault"
    else "สถานะลิฟต์: " ++ e.id ++ " กลับสู่ปกติ"
  let shown := if e.name ≠ "" then e.name else e.id
  let bname := buildingName.getD ""
  let body :=
    if toFault then "ลิฟต์ " ++ shown ++ " อาคาร " ++ bname ++ " เปลี่ยนจากปกติเป็นขัดข้อง"
    else "ลิฟต์ " ++ shown ++ " อาคาร " ++ bname ++ " กลับสู่สถานะปกติ"
  { user_id := uid, type := "elevator_state", channel := "in_app",
    title := title, body := body }

/-- `PUT /api/elevators/:id` (admin role), acting user `uid`:
400 when `name` or `building_id` is falsy; 404 when the elevator is missing;
otherwise the row is updated (state coerced to `safeState`), and exactly on a
`normal → fault` or `fault → normal` transition the user's previous
notifications tagged to this elevator are deleted and one new notification is
inserted. -/
def putElevator (db : DB) (uid : Nat) (eid : String) (b : ElevatorBody) : DB × Resp :=
  if ¬ (truthyStr b.name ∧ truthyCid b.building_id) then
    (db, ⟨400, "name and building_id are required"⟩)
  else
    match db.findElevator eid with
    | none => (db, ⟨404, "Elevator not found"⟩)
    | some prev =>
      let safeState := safeStateOf b.state
      let updated : ElevatorRow :=
        { prev with
          name := b.name.getD ""
          building_id := b.building_id.getD 0
          brand := orNullStr b.brand
          model := orNullStr b.model
          install_year := orNullNat b.install_year
          install_location := orNullStr b.install_location
          current_floor := (b.current_floor.filter (· ≠ 0)).getD 1
          current_load := (b.current_load.filter (· ≠ 0)).getD 0
          state := safeState
          capacity := orNullNat b.capacity
          last_maintenance_at := orNullStr b.last_maintenance_at
          next_maintenance_at := orNullStr b.next_maintenance_at }
      let db1 :=
        { db with elevators :=
            db.elevators.map (fun e => if e.id == eid then updated else e) }
      let isToFault := prev.state = "normal" ∧ safeState = "fault"
      let isToNormal := prev.state = "fault" ∧ safeState = "normal"
      if isToFault ∨ isToNormal then
        let kept := db1.notifications.filter (fun n => ! notifMatches uid updated.id n)
        let bname := (db1.findBuilding updated.building_id).map BuildingRow.name
        let fresh := stateNotification uid (decide isToFault) updated bname
        ({ db1 with notifications := kept ++ [fresh] }, ⟨200, ""⟩)
      else
        (db1, ⟨200, ""⟩)

/-! ## Maintenance job update (Maintenance.js) -/

/-- Request body of `PUT /api/maintenance/jobs/:id`. -/
structure JobBody where
  elevator_id : Option String
  job_type : Option String
  technician_id : Option Nat
  contract_id : Option Nat
  ticket_id : Option String
  remarks : Option String
  total_labor_hours : Option Nat
  labor_cost : Option Nat
  parts_cost : Option Nat
  total_cost : Option Nat
  started_at : Option String
  finished_at : Option String
deriving Repr, DecidableEq

/-- Modelled from the spec: the provided source of
`PUT /api/maintenance/jobs/:id` elides its authorization with the comments
`// ... (omitted role check logic)` and `// ... (omitted permission check
logic)`.  Per the spec, "A technician-role caller may only read/write
Maintenance Jobs linked to their own Technician record", so a technician may
write a job exactly when the job's technician record resolves to the
caller's identity (the same technicians→users chain the GET filter uses). -/
def technicianMayWriteJob (db : DB) (u : Claims) (j : JobRow) : Bool :=
  jobTechnicianUser db j == some u.id

/-- `PUT /api/maintenance/jobs/:id`: 404 when the job row is missing;
for a technician-role caller the spec-modelled ownership check
(`technicianMayWriteJob`) gates the write with 403; on success all listed
columns are overwritten from the body with the source's `|| null` / `|| 0`
defaults and `safeTotal = total_cost != null ? total_cost : labor + parts`. -/
def putJob (db : DB) (u : Claims) (jid : Nat) (b : JobBody) : DB × Resp :=
  match db.jobs.find? (fun j => j.id == jid) with
  | none => (db, ⟨404, "Job not found"⟩)
  | some j =>
    if u.role = "technician" ∧ ¬ technicianMayWriteJob db u j then
      (db, ⟨403, "Forbidden"⟩)
    else
      let labor := b.labor_cost.getD 0
      let parts := b.parts_cost.getD 0
      let safeTotal := b.total_cost.getD (labor + parts)
      let updated : JobRow :=
        { j with
          elevator_id := b.elevator_id.getD j.elevator_id
          contract_id := orNullNat b.contract_id
          ticket_id := orNullStr b.ticket_id
          technician_id := orNullNat b.technician_id
          job_type := b.job_type.getD j.job_type
          remarks := orNullStr b.remarks
          total_labor_hours := b.total_labor_hours.getD 0
          labor_cost := labor
          parts_cost := parts
          total_cost := safeTotal
          started_at := b.started_at
          finished_at := b.finished_at }
      ({ db with jobs := db.jobs.map (fun x => if x.id == jid then updated else x) },
       ⟨200, ""⟩)

/-- `stateInvalid s` holds when the requested elevator state lies outside the
ENUM (including an absent state), i.e. exactly when the handlers coerce it. -/
def stateInvalid : Option String → Prop
  | some st => st ∉ allowedStates
  | none => True

/-- Number of `pending` technician requests of one identity. -/
def pendingCount (db : DB) (uid : Nat) : Nat :=
  (db.techRequests.filter (fun r => r.user_id == uid && r.status == "pending")).length

/-! ## Concrete fixtures used by the evaluation theorems -/

/-- The empty store. -/
def emptyDB : DB :=
  { users := [], customers := [], buildings := [], elevators := [], tickets := [],
    contracts := [], quotations := [], invoices := [], plans := [], jobs := [],
    technicians := [], techRequests := [], notifications := [], alerts := [] }

/-- A ticket owned by customer 7. -/
def leakTicket : TicketRow :=
  { id := "T-1", elevator_id := "EV-1", reporter_id := 9, customer_id := some 7,
    status := "pending" }

/-- Store holding customer 7's ticket and contract. -/
def leakDB : DB :=
  { emptyDB with
    tickets := [leakTicket]
    contracts := [{ id := 1, customer_id := 7, contract_code := "C-001" }] }

/-- A customer-role claim set whose token carries no `customer_id`. -/
def noCidCustomer : Claims :=
  { id := 42, email := "cust@example.com", name := "Cust", role := "customer",
    customer_id := none }

/-- A customer-role claim set for customer 1. -/
def custOne : Claims :=
  { id := 43, email := "one@example.com", name := "One", role := "customer",
    customer_id := some 1 }

/-- A technician-role claim set (user id 5). -/
def techUser : Claims :=
  { id := 5, email := "tech@example.com", name := "Tech", role := "technician",
    customer_id := none }

/-- Store with two tenants (customers 1 and 2) and a technician. -/
def twoTenantDB : DB :=
  { emptyDB with
    users :=
      [{ id := 5, email := "tech@example.com", name := "Tech", role := "technician",
         customer_id := none }]
    buildings :=
      [{ id := 10, customer_id := 1, name := "Tower A" },
       { id := 20, customer_id := 2, name := "Tower B" }]
    elevators :=
      [{ id := "EV-1", name := "Lift A", building_id := 10, customer_id := none,
         brand := none, model := none, install_year := none, install_location := none,
         current_floor := 1, current_load := 0, state := "normal", capacity := none,
         last_maintenance_at := none, next_maintenance_at := none },
       { id := "EV-2", name := "Lift B", building_id := 20, customer_id := none,
         brand := none, model := none, install_year := none, install_location := none,
         current_floor := 1, current_load := 0, state := "fault", capacity := none,
         last_maintenance_at := none, next_maintenance_at := none }]
    tickets :=
      [{ id := "T-1", elevator_id := "EV-1", reporter_id := 43, customer_id := some 1,
         status := "pending" },
       { id := "T-2", elevator_id := "EV-2", reporter_id := 44, customer_id := some 2,
         status := "pending" }]
    contracts :=
      [{ id := 1, customer_id := 1, contract_code := "C-001" },
       { id := 2, customer_id := 2, contract_code := "C-002" }]
    jobs :=
      [{ id := 1, elevator_id := "EV-1", contract_id := none, ticket_id := none,
         technician_id := some 30, job_type := "planned", remarks := none,
         total_labor_hours := 0, labor_cost := 0, parts_cost := 0, total_cost := 0,
         started_at := none, finished_at := none },
       { id := 2, elevator_id := "EV-2", contract_id := none, ticket_id := none,
         technician_id := some 31, job_type := "emergency", remarks := none,
         total_labor_hours := 0, labor_cost := 0, parts_cost := 0, total_cost := 0,
         started_at := none, finished_at := none }]
    technicians :=
      [{ id := 30, user_id := 5, phone := none, specialty := none, notes := none },
       { id := 31, user_id := 6, phone := none, specialty := none, notes := none }]
    techRequests :=
      [{ id := 1, user_id := 5, phone := "0812345678", specialty := "doors",
         address := "Bangkok", date_of_birth := "1990-01-01", age := some 35,
         experience := "5 years", education := "vocational", notes := none,
         status := "pending" }] }

/-- A fully populated technician-request body. -/
def sampleTechRequestBody : TechRequestBody :=
  { phone := some "0812345678", specialty := some "doors", address := some "Bangkok",
    date_of_birth := some "1990-01-01", age := some 35, experience := some "5 years",
    education := some "vocational", notes := none }

/-- A registration body reusing the technician's email with role `admin`. -/
def sampleRegisterBody : RegisterBody :=
  { email := some "tech@example.com", password := some "secret123",
    name := some "Imposter", role := some "admin", customerId := some 7 }

/-- An elevator-update body requesting state `fault`. -/
def faultBody : ElevatorBody :=
  { id := none, name := some "Lift A", building_id := some 10, brand := none,
    model := none, install_year := none, install_location := none, capacity := none,
    state := some "fault", current_floor := none, current_load := none,
    last_maintenance_at := none, next_maintenance_at := none }

/-- An elevator body whose requested state `broken` is outside the ENUM. -/
def brokenBody : ElevatorBody :=
  { id := some "EV-9", name := some "Lift X", building_id := some 10, brand := none,
    model := none, install_year := none, install_location := none, capacity := none,
    state := some "broken", current_floor := none, current_load := none,
    last_maintenance_at := none, next_maintenance_at := none }

/-- An elevator-update body carrying no state at all. -/
def noStateBody : ElevatorBody :=
  { id := none, name := some "Lift B", building_id := some 20, brand := none,
    model := none, install_year := none, install_location := none, capacity := none,
    state := none, current_floor := none, current_load := none,
    last_maintenance_at := none, next_maintenance_at := none }

/-- A maintenance-job update body. -/
def sampleJobBody : JobBody :=
  { elevator_id := some "EV-1", job_type := some "planned", technician_id := some 30,
    contract_id := none, ticket_id := none, remarks := none, total_labor_hours := none,
    labor_cost := some 100, parts_cost := some 50, total_cost := none,
    started_at := none, finished_at := none }

/-! ## Helper lemmas -/

/-- `find?` through a keyed in-place update: when the update function
preserves the key predicate on matching rows, looking up the key after the
update returns the updated first match. -/
theorem find?_map_key {α : Type} (p : α → Bool) (g : α → α)
    (hg : ∀ a, p a = true → p (g a) = true) (l : List α) :
    (l.map (fun a => if p a then g a else a)).find? p = (l.find? p).map g := by
  induction l with
  | nil => rfl
  | cons hd tl ih =>
    by_cases h : p hd
    · simp [List.find?_cons, h, hg hd h]
    · simp [List.find?_cons, h, ih]

/-- A string is a `LIKE`-prefix of any of its extensions. -/
theorem likePrefixed_append (pre t : String) : likePrefixed pre (pre ++ t) = true := by
  simp [likePrefixed, String.data_append, List.isPrefixOf_iff_prefix]

/-- Every state the handlers store is a member of the ENUM. -/
theorem safeStateOf_mem (s : Option String) : safeStateOf s ∈ allowedStates := by
  cases s with
  | none => simp [safeStateOf, allowedStates]
  | some st =>
    simp only [safeStateOf]
    by_cases h : allowedStates.contains st
    · rw [if_pos h]
      simpa using h
    · rw [if_neg (by simpa using h)]
      simp [allowedStates]

/-- A requested state outside the ENUM (or absent) is coerced to `normal`. -/
theorem safeStateOf_invalid (s : Option String) (h : stateInvalid s) :
    safeStateOf s = "normal" := by
  cases s with
  | none => rfl
  | some st =>
    simp only [safeStateOf]
    rw [if_neg]
    simp only [stateInvalid] at h
    exact fun hc => h (by simpa using hc)

/-- The first match of a keyed `find?` has the key. -/
theorem findElevator_id (db : DB) (eid : String) (prev : ElevatorRow)
    (hfind : db.findElevator eid = some prev) : prev.id = eid := by
  unfold DB.findElevator at hfind
  simpa using List.find?_some hfind

/-- A `normal → fault` or `fault → normal` elevator update first deletes the
acting user's notifications tagged to the elevator, then inserts exactly one
new tagged notification for that user. -/
theorem putElevator_transition (db : DB) (uid : Nat) (eid : String)
    (b : ElevatorBody) (prev : ElevatorRow)
    (hvalid : truthyStr b.name ∧ truthyCid b.building_id)
    (hfind : db.findElevator eid = some prev)
    (htrans : (prev.state = "normal" ∧ safeStateOf b.state = "fault") ∨
              (prev.state = "fault" ∧ safeStateOf b.state = "normal")) :
    ∃ n : NotificationRow,
      (putElevator db uid eid b).1.notifications =
        db.notifications.filter (fun m => ! notifMatches uid eid m) ++ [n] ∧
      n.user_id = uid ∧ notifMatches uid eid n = true := by
  have hpid : prev.id = eid := findElevator_id db eid prev hfind
  rcases htrans with ⟨h1, h2⟩ | ⟨h1, h2⟩
  · simp only [putElevator, hfind, hvalid.1, hvalid.2, h1, h2, hpid]
    simp only [String.reduceEq, and_self, and_false, false_and, false_or, true_or, or_false,
      not_true_eq_false, if_false, if_true, reduceIte]
    refine ⟨_, rfl, rfl, ?_⟩
    simp [notifMatches, stateNotification, likePrefixed_append]
  · simp only [putElevator, hfind, hvalid.1, hvalid.2, h1, h2, hpid]
    simp only [String.reduceEq, and_self, and_false, false_and, false_or, true_or, or_false,
      not_true_eq_false, if_false, if_true, reduceIte]
    refine ⟨_, rfl, rfl, ?_⟩
    simp [notifMatches, stateNotification, likePrefixed_append]

/-- An elevator update that leaves the (coerced) state unchanged neither
deletes nor inserts any notification. -/
theorem putElevator_same_state (db : DB) (uid : Nat) (eid : String)
    (b : ElevatorBody) (prev : ElevatorRow)
    (hvalid : truthyStr b.name ∧ truthyCid b.building_id)
    (hfind : db.findElevator eid = some prev)
    (hsame : safeStateOf b.state = prev.state) :
    (putElevator db uid eid b).1.notifications = db.notifications := by
  have hcond : ¬ ((prev.state = "normal" ∧ safeStateOf b.state = "fault") ∨
      (prev.state = "fault" ∧ safeStateOf b.state = "normal")) := by
    rintro (⟨ha, hb⟩ | ⟨ha, hb⟩)
    · rw [hsame, ha] at hb
      exact absurd hb (by decide)
    · rw [hsame, ha] at hb
      exact absurd hb (by decide)
  simp only [putElevator, hfind, hvalid.1, hvalid.2]
  simp only [and_self, not_true_eq_false, if_false]
  rw [if_neg hcond]

/-- The updated elevator row after `PUT /api/elevators/:id`: the same key,
with the state coerced through `safeStateOf`. -/
theorem putElevator_updated_state (db : DB) (uid : Nat) (eid : String)
    (b : ElevatorBody) (prev : ElevatorRow)
    (hvalid : truthyStr b.name ∧ truthyCid b.building_id)
    (hfind : db.findElevator eid = some prev) :
    ∃ row : ElevatorRow, (putElevator db uid eid b).1.findElevator eid = some row ∧
      row.state = safeStateOf b.state := by
  have hpid : prev.id = eid := findElevator_id db eid prev hfind
  have hmap := find?_map_key (fun e : ElevatorRow => e.id == eid)
    (fun _ => { prev with
      name := b.name.getD ""
      building_id := b.building_id.getD 0
      brand := orNullStr b.brand
      model := orNullStr b.model
      install_year := orNullNat b.install_year
      install_location := orNullStr b.install_location
      current_floor := (b.current_floor.filter (· ≠ 0)).getD 1
      current_load := (b.current_load.filter (· ≠ 0)).getD 0
      state := safeStateOf b.state
      capacity := orNullNat b.capacity
      last_maintenance_at := orNullStr b.last_maintenance_at
      next_maintenance_at := orNullStr b.next_maintenance_at })
    (fun a _ => by simp [hpid]) db.elevators
  rw [show db.elevators.find? (fun e => e.id == eid) = some prev from hfind] at hmap
  simp only [putElevator, hfind, hvalid.1, hvalid.2]
  simp only [and_self, not_true_eq_false, if_false]
  by_cases hc : (prev.state = "normal" ∧ safeStateOf b.state = "fault") ∨
      (prev.state = "fault" ∧ safeStateOf b.state = "normal")
  · rw [if_pos hc]
    exact ⟨_, hmap, rfl⟩
  · rw [if_neg hc]
    exact ⟨_, hmap, rfl⟩

/-! ## Claim theorems -/

/-- C8: a request to a protected operation that carries no bearer token in
the Authorization header is answered 401 `Missing token` by the Access
Guard, and the handler — hence any database access — is never reached: the
store comes back unchanged whatever the handler would have done. -/
theorem missing_token_unauthorized (verify : String → Option Claims)
    (handler : Claims → DB → DB × Resp) (authHeader : Option String) (db : DB)
    (h : bearerToken authHeader = "") :
    protectedRoute verify handler authHeader db = (db, ⟨401, "Missing token"⟩) := by
  unfold protectedRoute authRequired
  simp [h]

/-- Instance of `missing_token_unauthorized`: a request with no
Authorization header at all. -/
theorem missing_token_unauthorized_witness :
    protectedRoute (fun _ => none) (fun _ db => (db, ⟨200, ""⟩)) none emptyDB
      = (emptyDB, ⟨401, "Missing token"⟩) :=
  missing_token_unauthorized (fun _ => none) (fun _ db => (db, ⟨200, ""⟩)) none emptyDB
    (by decide)

/-- C7: registering with an email already present in `users` answers 409
`Email already in use` and leaves the store — in particular the `users`
table — unchanged. -/
theorem register_duplicate_email_conflict (db : DB) (b : RegisterBody) (newId : Nat)
    (hvalid : truthyStr b.email ∧ truthyStr b.password ∧ truthyStr b.name)
    (hdup : ∃ u ∈ db.users, some u.email = b.email) :
    register db b newId = (db, ⟨409, "Email already in use"⟩) := by
  obtain ⟨u, hu, hue⟩ := hdup
  unfold register
  rw [if_neg (not_not_intro hvalid), if_pos]
  intro hnil
  rw [List.filter_eq_nil_iff] at hnil
  exact hnil u hu (by simp [hue])

/-- Instance of `register_duplicate_email_conflict`: re-registering the
technician's email against `twoTenantDB`. -/
theorem register_duplicate_email_conflict_witness :
    register twoTenantDB sampleRegisterBody 99 = (twoTenantDB, ⟨409, "Email already in use"⟩) :=
  register_duplicate_email_conflict twoTenantDB sampleRegisterBody 99
    (by decide)
    ⟨{ id := 5, email := "tech@example.com", name := "Tech", role := "technician",
       customer_id := none }, by decide, by decide⟩

/-- C9: a `users` row created by a successful registration has role
`customer` unless the requested role is exactly `technician` (so `admin`
and `manager` are stored as `customer`), and a `technician` registration
stores `customer_id = NULL` regardless of the supplied `customerId`. -/
theorem register_role_coercion (db : DB) (b : RegisterBody) (newId : Nat)
    (hvalid : truthyStr b.email ∧ truthyStr b.password ∧ truthyStr b.name)
    (hfresh : db.users.filter (fun u => some u.email == b.email) = []) :
    ∃ r : UserRow, (register db b newId).1.users = db.users ++ [r] ∧
      (r.role = "customer" ∨ r.role = "technician") ∧
      (b.role ≠ some "technician" → r.role = "customer") ∧
      (b.role = some "technician" → r.customer_id = none) := by
  unfold register
  rw [if_neg (not_not_intro hvalid), if_neg (not_not_intro hfresh)]
  by_cases hrole : b.role = some "technician"
  · exact ⟨_, rfl, Or.inr (by simp [hrole]), fun hc => absurd hrole hc,
      fun _ => by simp [hrole]⟩
  · exact ⟨_, rfl, Or.inl (by simp [hrole]), fun _ => by simp [hrole],
      fun hc => absurd hc hrole⟩

/-- Instance of `register_role_coercion`: requesting role `admin` with a
`customerId` on an empty store. -/
theorem register_role_coercion_witness :
    ∃ r : UserRow, (register emptyDB sampleRegisterBody 1).1.users = emptyDB.users ++ [r] ∧
      (r.role = "customer" ∨ r.role = "technician") ∧
      (sampleRegisterBody.role ≠ some "technician" → r.role = "customer") ∧
      (sampleRegisterBody.role = some "technician" → r.customer_id = none) :=
  register_role_coercion emptyDB sampleRegisterBody 1 (by decide) (by decide)

/-- C6: while an identity has a `pending` technician request, a further
valid submission answers 409 and leaves the store unchanged; moreover one
call of the submission handler never lifts any identity's pending count
above one, so at most one pending request per identity ever exists. -/
theorem duplicate_pending_request_conflict (db : DB) (u : Claims)
    (b : TechRequestBody) (newId : Nat)
    (hvalid : truthyStr b.phone ∧ truthyStr b.specialty ∧ truthyStr b.address ∧
      truthyStr b.date_of_birth ∧ truthyStr b.experience ∧ truthyStr b.education)
    (hp : ∃ r ∈ db.techRequests, r.user_id = u.id ∧ r.status = "pending") :
    postTechnicianRequest db u b newId =
      (db, ⟨409, "You already have a pending request. Please wait for admin approval."⟩) ∧
    ∀ (db₂ : DB) (u₂ : Claims) (b₂ : TechRequestBody) (nid w : Nat),
      pendingCount db₂ w ≤ 1 →
      pendingCount (postTechnicianRequest db₂ u₂ b₂ nid).1 w ≤ 1 := by
  constructor
  · obtain ⟨r, hr, hru, hrs⟩ := hp
    unfold postTechnicianRequest
    rw [if_neg (not_not_intro hvalid), if_pos]
    intro hnil
    rw [List.filter_eq_nil_iff] at hnil
    exact hnil r hr (by simp [hru, hrs])
  · intro db₂ u₂ b₂ nid w hw
    unfold postTechnicianRequest
    by_cases hv : truthyStr b₂.phone ∧ truthyStr b₂.specialty ∧ truthyStr b₂.address ∧
        truthyStr b₂.date_of_birth ∧ truthyStr b₂.experience ∧ truthyStr b₂.education
    · rw [if_neg (not_not_intro hv)]
      by_cases hpend :
          (db₂.techRequests.filter (fun r => r.user_id == u₂.id && r.status == "pending")) ≠ []
      · rw [if_pos hpend]
        exact hw
      · rw [if_neg hpend]
        rw [not_not] at hpend
        by_cases hwu : w = u₂.id
        · subst hwu
          unfold pendingCount at hw ⊢
          simp only [List.filter_append]
          rw [hpend]
          simp
        · unfold pendingCount at hw ⊢
          simp only [List.filter_append]
          have : (List.filter (fun r => r.user_id == w && r.status == "pending")
              [({ id := nid, user_id := u₂.id, phone := b₂.phone.getD "",
                  specialty := b₂.specialty.getD "", address := b₂.address.getD "",
                  date_of_birth := b₂.date_of_birth.getD "", age := b₂.age,
                  experience := b₂.experience.getD "", education := b₂.education.getD "",
                  notes := orNullStr b₂.notes, status := "pending" } : TechRequestRow)]) = [] := by
            simp [Ne.symm hwu]
          rw [this]
          simpa using hw
    · rw [if_pos hv]
      exact hw

/-- Instance of `duplicate_pending_request_conflict`: user 5 of
`twoTenantDB`, who already has request 1 pending, submits again. -/
theorem duplicate_pending_request_conflict_witness :
    postTechnicianRequest twoTenantDB techUser sampleTechRequestBody 2 =
      (twoTenantDB,
       ⟨409, "You already have a pending request. Please wait for admin approval."⟩) :=
  (duplicate_pending_request_conflict twoTenantDB techUser sampleTechRequestBody 2
    (by decide)
    ⟨{ id := 1, user_id := 5, phone := "0812345678", specialty := "doors",
       address := "Bangkok", date_of_birth := "1990-01-01", age := some 35,
       experience := "5 years", education := "vocational", notes := none,
       status := "pending" }, by decide, by decide, by decide⟩).1

/-- C5: for a pending technician request whose identity already has a
technician record, the `pending → approved` transition updates the request's
status to `approved` and inserts no second `technicians` row; the
`pending → rejected` transition only updates the status and never inserts a
`technicians` row. -/
theorem technician_request_approval_idempotent (db : DB) (rid newTechId : Nat)
    (req : TechRequestRow)
    (hfind : db.techRequests.find? (fun r => r.id == rid) = some req)
    (_hpend : req.status = "pending") :
    ((∃ t ∈ db.technicians, t.user_id = req.user_id) →
      (putTechnicianRequest db rid (some "approved") newTechId).1.technicians =
        db.technicians ∧
      (putTechnicianRequest db rid (some "approved") newTechId).1.techRequests.find?
          (fun r => r.id == rid) = some { req with status := "approved" }) ∧
    ((putTechnicianRequest db rid (some "rejected") newTechId).1.technicians =
        db.technicians ∧
      (putTechnicianRequest db rid (some "rejected") newTechId).1.techRequests.find?
          (fun r => r.id == rid) = some { req with status := "rejected" }) := by
  have hmapA := find?_map_key (fun r : TechRequestRow => r.id == rid)
    (fun r => { r with status := "approved" }) (fun a ha => ha) db.techRequests
  have hmapR := find?_map_key (fun r : TechRequestRow => r.id == rid)
    (fun r => { r with status := "rejected" }) (fun a ha => ha) db.techRequests
  rw [hfind] at hmapA hmapR
  constructor
  · intro ht
    obtain ⟨t, htmem, htu⟩ := ht
    have hne : (db.technicians.filter (fun t => t.user_id == req.user_id)) ≠ [] := by
      intro hnil
      rw [List.filter_eq_nil_iff] at hnil
      exact hnil t htmem (by simp [htu])
    simp only [putTechnicianRequest, hfind]
    rw [if_neg (by simp)]
    rw [if_neg (by exact fun hc => hne hc.2)]
    exact ⟨rfl, hmapA⟩
  · simp only [putTechnicianRequest, hfind]
    rw [if_neg (by simp)]
    rw [if_neg (by simp)]
    exact ⟨rfl, hmapR⟩

/-- Instance of `technician_request_approval_idempotent`: request 1 of
`twoTenantDB` (user 5, who already is technician 30). -/
theorem technician_request_approval_idempotent_witness :
    ((putTechnicianRequest twoTenantDB 1 (some "approved") 32).1.technicians =
        twoTenantDB.technicians ∧
      (putTechnicianRequest twoTenantDB 1 (some "approved") 32).1.techRequests.find?
          (fun r => r.id == 1) =
        some { id := 1, user_id := 5, phone := "0812345678", specialty := "doors",
               address := "Bangkok", date_of_birth := "1990-01-01", age := some 35,
               experience := "5 years", education := "vocational", notes := none,
               status := "approved" }) ∧
    ((putTechnicianRequest twoTenantDB 1 (some "rejected") 32).1.technicians =
        twoTenantDB.technicians ∧
      (putTechnicianRequest twoTenantDB 1 (some "rejected") 32).1.techRequests.find?
          (fun r => r.id == 1) =
        some { id := 1, user_id := 5, phone := "0812345678", specialty := "doors",
               address := "Bangkok", date_of_birth := "1990-01-01", age := some 35,
               experience := "5 years", education := "vocational", notes := none,
               status := "rejected" }) := by
  have h := technician_request_approval_idempotent twoTenantDB 1 32
    { id := 1, user_id := 5, phone := "0812345678", specialty := "doors",
      address := "Bangkok", date_of_birth := "1990-01-01", age := some 35,
      experience := "5 years", education := "vocational", notes := none,
      status := "pending" } (by decide) (by decide)
  exact ⟨h.1 ⟨{ id := 30, user_id := 5, phone := none, specialty := none, notes := none },
    by decide, by decide⟩, h.2⟩

/-- C1 (refuted — code bug): a customer-role caller whose token carries no
`customer_id` does NOT receive the empty set from every scoped listing.
`GET /api/tickets` only appends its customer filter when
`req.user.customer_id` is truthy, so with no `customer_id` the caller
receives the unrestricted ticket list — here customer 7's ticket — while a
sentinel-filtered listing such as `GET /api/contracts` does return the empty
set on the same store. -/
theorem tickets_listing_fail_open_no_customer_id :
    listTickets noCidCustomer leakDB = [leakTicket] ∧
    leakTicket.customer_id = some 7 ∧
    noCidCustomer.customer_id = none ∧
    listContracts noCidCustomer leakDB = [] := by decide

/-- C2: for a customer-role caller with `customerId = C` (a real, nonzero
id), every row of the Buildings/Elevators/Tickets/Contracts listings is
owned by `C` — directly through its `customer_id` column or through its
building's `customer_id`. -/
theorem customer_scoped_listings_own_rows (u : Claims) (db : DB) (C : Nat)
    (hrole : u.role = "customer") (hcid : u.customer_id = some C) (hC : C ≠ 0) :
    (∀ bld ∈ listBuildings u db, bld.customer_id = C) ∧
    (∀ e ∈ listElevators u db, elevatorCustomer db e = some C) ∧
    (∀ t ∈ listTickets u db, t.customer_id = some C) ∧
    (∀ c ∈ listContracts u db, c.customer_id = C) := by
  have hsent : sentinel u.customer_id = C := by simp [sentinel, hcid]
  refine ⟨?_, ?_, ?_, ?_⟩
  · intro bld hb
    rw [listBuildings, if_pos hrole] at hb
    have hmem := List.mem_filter.mp hb
    simpa [hsent] using hmem.2
  · intro e he
    rw [listElevators, if_pos hrole] at he
    have hmem := List.mem_filter.mp he
    simpa [hsent] using hmem.2
  · intro t htm
    rw [listTickets, if_pos ⟨hrole, by simp [truthyCid, hcid, hC]⟩] at htm
    have hmem := List.mem_filter.mp htm
    have h2 := hmem.2
    rw [hcid] at h2
    simpa using h2
  · intro c hc
    rw [listContracts, if_pos hrole] at hc
    have hmem := List.mem_filter.mp hc
    simpa [hsent] using hmem.2

/-- Instance of `customer_scoped_listings_own_rows`: customer 1 against the
two-tenant store. -/
theorem customer_scoped_listings_own_rows_witness :
    (∀ bld ∈ listBuildings custOne twoTenantDB, bld.customer_id = 1) ∧
    (∀ e ∈ listElevators custOne twoTenantDB, elevatorCustomer twoTenantDB e = some 1) ∧
    (∀ t ∈ listTickets custOne twoTenantDB, t.customer_id = some 1) ∧
    (∀ c ∈ listContracts custOne twoTenantDB, c.customer_id = 1) :=
  customer_scoped_listings_own_rows custOne twoTenantDB 1 rfl rfl (by decide)

/-- C3: for a technician-role caller, the jobs listing returns only jobs
whose technician record resolves to the caller's identity, and an update of
a maintenance job succeeds (HTTP 200) only when the targeted job is linked
to the caller's own technician record (write path gated by the
spec-modelled `technicianMayWriteJob`). -/
theorem technician_jobs_read_write_scoped (u : Claims) (db : DB) (jid : Nat) (b : JobBody)
    (hrole : u.role = "technician") :
    (∀ j ∈ listJobs u db, jobTechnicianUser db j = some u.id) ∧
    ((putJob db u jid b).2.status = 200 →
      ∃ j ∈ db.jobs, j.id = jid ∧ jobTechnicianUser db j = some u.id) := by
  constructor
  · intro j hj
    rw [listJobs, if_pos hrole] at hj
    have hmem := List.mem_filter.mp hj
    simpa using hmem.2
  · intro h200
    rcases hj : db.jobs.find? (fun x => x.id == jid) with _ | j
    · rw [putJob, hj] at h200
      simp at h200
    · rw [putJob, hj] at h200
      by_cases hperm : u.role = "technician" ∧ ¬ technicianMayWriteJob db u j
      · simp [hperm.1, hperm.2] at h200
      · refine ⟨j, List.mem_of_find?_eq_some hj, by simpa using List.find?_some hj, ?_⟩
        have hok : technicianMayWriteJob db u j := by
          by_contra hn
          exact hperm ⟨hrole, hn⟩
        simpa [technicianMayWriteJob] using hok

/-- Instance of `technician_jobs_read_write_scoped`: technician user 5
against the two-tenant store, updating job 1. -/
theorem technician_jobs_read_write_scoped_witness :
    (∀ j ∈ listJobs techUser twoTenantDB, jobTechnicianUser twoTenantDB j = some techUser.id) ∧
    ((putJob twoTenantDB techUser 1 sampleJobBody).2.status = 200 →
      ∃ j ∈ twoTenantDB.jobs, j.id = 1 ∧ jobTechnicianUser twoTenantDB j = some techUser.id) :=
  technician_jobs_read_write_scoped techUser twoTenantDB 1 sampleJobBody rfl

/-- C4: for an elevator update by acting user `uid`, a `normal → fault`
transition — and symmetrically `fault → normal` — first deletes all of the
user's prior notifications tagged to that elevator, then inserts exactly one
new Notification scoped to the acting user and tagged by the elevator's
identity; an update that leaves the state unchanged (e.g. `fault → fault`)
creates no notification and deletes none. -/
theorem elevator_state_notification_side_effect (db : DB) (uid : Nat) (eid : String)
    (b : ElevatorBody) (prev : ElevatorRow)
    (hvalid : truthyStr b.name ∧ truthyCid b.building_id)
    (hfind : db.findElevator eid = some prev) :
    ((prev.state = "normal" ∧ safeStateOf b.state = "fault") →
      ∃ n : NotificationRow,
        (putElevator db uid eid b).1.notifications =
          db.notifications.filter (fun m => ! notifMatches uid eid m) ++ [n] ∧
        n.user_id = uid ∧ notifMatches uid eid n = true) ∧
    ((prev.state = "fault" ∧ safeStateOf b.state = "normal") →
      ∃ n : NotificationRow,
        (putElevator db uid eid b).1.notifications =
          db.notifications.filter (fun m => ! notifMatches uid eid m) ++ [n] ∧
        n.user_id = uid ∧ notifMatches uid eid n = true) ∧
    (safeStateOf b.state = prev.state →
      (putElevator db uid eid b).1.notifications = db.notifications) :=
  ⟨fun h => putElevator_transition db uid eid b prev hvalid hfind (Or.inl h),
   fun h => putElevator_transition db uid eid b prev hvalid hfind (Or.inr h),
   fun h => putElevator_same_state db uid eid b prev hvalid hfind h⟩

/-- Instance of `elevator_state_notification_side_effect`: user 42 switches
elevator EV-1 of `twoTenantDB` (currently `normal`) to `fault`. -/
theorem elevator_state_notification_side_effect_witness :
    ((({ id := "EV-1", name := "Lift A", building_id := 10, customer_id := none,
         brand := none, model := none, install_year := none, install_location := none,
         current_floor := 1, current_load := 0, state := "normal", capacity := none,
         last_maintenance_at := none, next_maintenance_at := none } : ElevatorRow).state =
          "normal" ∧ safeStateOf faultBody.state = "fault") →
      ∃ n : NotificationRow,
        (putElevator twoTenantDB 42 "EV-1" faultBody).1.notifications =
          twoTenantDB.notifications.filter (fun m => ! notifMatches 42 "EV-1" m) ++ [n] ∧
        n.user_id = 42 ∧ notifMatches 42 "EV-1" n = true) ∧
    ((({ id := "EV-1", name := "Lift A", building_id := 10, customer_id := none,
         brand := none, model := none, install_year := none, install_location := none,
         current_floor := 1, current_load := 0, state := "normal", capacity := none,
         last_maintenance_at := none, next_maintenance_at := none } : ElevatorRow).state =
          "fault" ∧ safeStateOf faultBody.state = "normal") →
      ∃ n : NotificationRow,
        (putElevator twoTenantDB 42 "EV-1" faultBody).1.notifications =
          twoTenantDB.notifications.filter (fun m => ! notifMatches 42 "EV-1" m) ++ [n] ∧
        n.user_id = 42 ∧ notifMatches 42 "EV-1" n = true) ∧
    (safeStateOf faultBody.state =
        ({ id := "EV-1", name := "Lift A", building_id := 10, customer_id := none,
           brand := none, model := none, install_year := none, install_location := none,
           current_floor := 1, current_load := 0, state := "normal", capacity := none,
           last_maintenance_at := none, next_maintenance_at := none } : ElevatorRow).state →
      (putElevator twoTenantDB 42 "EV-1" faultBody).1.notifications =
        twoTenantDB.notifications) :=
  elevator_state_notification_side_effect twoTenantDB 42 "EV-1" faultBody
    { id := "EV-1", name := "Lift A", building_id := 10, customer_id := none,
      brand := none, model := none, install_year := none, install_location := none,
      current_floor := 1, current_load := 0, state := "normal", capacity := none,
      last_maintenance_at := none, next_maintenance_at := none }
    (by decide) (by decide)

/-- C10: after an elevator create or update, the stored state is a member of
the ENUM; a requested state outside the ENUM (or an absent state) is stored
as `normal` rather than rejected; and for an elevator currently in state
`fault`, such a coerced update fires the `fault → normal` notification side
effect. -/
theorem elevator_state_enum_invariant (db : DB) (uid : Nat) (eid : String)
    (bPost bPut : ElevatorBody) (prev : ElevatorRow)
    (hvPost : truthyStr bPost.id ∧ truthyStr bPost.name ∧ truthyCid bPost.building_id)
    (hfresh : db.findElevator (bPost.id.getD "") = none)
    (hvPut : truthyStr bPut.name ∧ truthyCid bPut.building_id)
    (hfind : db.findElevator eid = some prev) :
    (∃ row : ElevatorRow, (postElevator db bPost).1.elevators = db.elevators ++ [row] ∧
      row.state ∈ allowedStates ∧ (stateInvalid bPost.state → row.state = "normal")) ∧
    (∃ row : ElevatorRow, (putElevator db uid eid bPut).1.findElevator eid = some row ∧
      row.state ∈ allowedStates ∧ (stateInvalid bPut.state → row.state = "normal")) ∧
    ((prev.state = "fault" ∧ stateInvalid bPut.state) →
      ∃ n : NotificationRow,
        (putElevator db uid eid bPut).1.notifications =
          db.notifications.filter (fun m => ! notifMatches uid eid m) ++ [n] ∧
        notifMatches uid eid n = true) := by
  refine ⟨?_, ?_, ?_⟩
  · simp only [postElevator, hvPost.1, hvPost.2.1, hvPost.2.2, hfresh]
    simp only [and_self, not_true_eq_false, if_false]
    exact ⟨_, rfl, safeStateOf_mem _, fun hinv => safeStateOf_invalid _ hinv⟩
  · obtain ⟨row, hrow, hstate⟩ := putElevator_updated_state db uid eid bPut prev hvPut hfind
    refine ⟨row, hrow, ?_, fun hinv => ?_⟩
    · rw [hstate]
      exact safeStateOf_mem _
    · rw [hstate]
      exact safeStateOf_invalid _ hinv
  · rintro ⟨hfault, hinv⟩
    obtain ⟨n, hn1, _, hn3⟩ := putElevator_transition db uid eid bPut prev hvPut hfind
      (Or.inr ⟨hfault, safeStateOf_invalid _ hinv⟩)
    exact ⟨n, hn1, hn3⟩

/-- Instance of `elevator_state_enum_invariant`: creating elevator EV-9 with
the out-of-ENUM state `broken`, and updating the `fault` elevator EV-2 with
no state at all. -/
theorem elevator_state_enum_invariant_witness :
    (∃ row : ElevatorRow, (postElevator twoTenantDB brokenBody).1.elevators =
        twoTenantDB.elevators ++ [row] ∧
      row.state ∈ allowedStates ∧ (stateInvalid brokenBody.state → row.state = "normal")) ∧
    (∃ row : ElevatorRow, (putElevator twoTenantDB 42 "EV-2" noStateBody).1.findElevator
        "EV-2" = some row ∧
      row.state ∈ allowedStates ∧ (stateInvalid noStateBody.state → row.state = "normal")) ∧
    ((({ id := "EV-2", name := "Lift B", building_id := 20, customer_id := none,
         brand := none, model := none, install_year := none, install_location := none,
         current_floor := 1, current_load := 0, state := "fault", capacity := none,
         last_maintenance_at := none, next_maintenance_at := none } : ElevatorRow).state =
          "fault" ∧ stateInvalid noStateBody.state) →
      ∃ n : NotificationRow,
        (putElevator twoTenantDB 42 "EV-2" noStateBody).1.notifications =
          twoTenantDB.notifications.filter (fun m => ! notifMatches 42 "EV-2" m) ++ [n] ∧
        notifMatches 42 "EV-2" n = true) :=
  elevator_state_enum_invariant twoTenantDB 42 "EV-2" brokenBody noStateBody
    { id := "EV-2", name := "Lift B", building_id := 20, customer_id := none,
      brand := none, model := none, install_year := none, install_location := none,
      current_floor := 1, current_load := 0, state := "fault", capacity := none,
      last_maintenance_at := none, next_maintenance_at := none }
    (by decide) (by decide) (by decide) (by decide)

end LiftCare
